import Mathlib

/-!
Verification of the ACME provisioner core
(src/authority/provisioner/acme.go) against its specification.

Shallow embedding conventions:
- Go `error` results become `Option String` (`none` = nil error,
  `some msg` = a non-nil error carrying the message built by the code).
- Go `string`-backed types (`ACMEChallenge`, `ACMEIdentifierType`) are
  Lean `String`s.
- `time.Duration` is an `Int` (int64 nanoseconds; no arithmetic in this
  core ever overflows it).
- The `*Controller` pointer field `ctl` becomes `Option Controller`;
  a method that dereferences a nil `ctl` would panic in Go, so such a
  method returns `Option result` with `none` standing for the panic.
- External collaborators that are repository code not under src/
  (the policy gate, the claimer, `NewController`) are modelled from the
  spec, as recorded on each definition.
- `net.ParseIP` is Go standard library, external to the repository; it
  is passed in as an explicit function argument `parseIP`, returning
  `none` for the nil result on a parse failure.
-/

namespace AcmeProv

/-- Go `ACMEChallenge`: a string-backed challenge name. -/
abbrev ACMEChallenge := String

/-- Go constant `HTTP_01`. -/
def HTTP_01 : ACMEChallenge := "http-01"

/-- Go constant `DNS_01`. -/
def DNS_01 : ACMEChallenge := "dns-01"

/-- Go constant `TLS_ALPN_01`. -/
def TLS_ALPN_01 : ACMEChallenge := "tls-alpn-01"

/-- Go constant `DEVICE_ATTEST_01`. -/
def DEVICE_ATTEST_01 : ACMEChallenge := "device-attest-01"

/-- Go `strings.ToLower`: rune-wise lower-casing, written by structural
recursion on the character list so that concrete instances evaluate. -/
def toLowerStr (s : String) : String :=
  String.mk (s.data.map Char.toLower)

/-- Go method `ACMEChallenge.String()`: `strings.ToLower` of the value. -/
def ACMEChallenge.normalize (c : ACMEChallenge) : String :=
  toLowerStr c

/-- The message of `fmt.Errorf("acme challenge %q is not supported", c)`
(the `%q` quoting, for challenge strings free of escapes). -/
def unsupportedChallengeMsg (c : ACMEChallenge) : String :=
  "acme challenge \x22" ++ c ++ "\x22 is not supported"

/-- Go method `ACMEChallenge.Validate()`: the switch on
`ACMEChallenge(c.String())` against the four defined constants. -/
def ACMEChallenge.Validate (c : ACMEChallenge) : Option String :=
  if c.normalize = HTTP_01 ∨ c.normalize = DNS_01 ∨
     c.normalize = TLS_ALPN_01 ∨ c.normalize = DEVICE_ATTEST_01 then
    none
  else
    some (unsupportedChallengeMsg c)

/-- Go `strings.EqualFold` as used on challenge names (ASCII case
folding: equality after lower-casing). -/
def eqFold (a b : String) : Bool :=
  toLowerStr a == toLowerStr b

/-- The result of Go `net.ParseIP`: an IP address value (the bytes of
the address); `Option IPAddr` stands for the nillable `net.IP`. -/
structure IPAddr where
  bytes : List Nat
deriving DecidableEq

/-- Modelled from the spec (§6): the X.509 PolicyGate collaborator is
repository code not under src/; it answers allow/deny questions through
`IsIPAllowed(ip) error` (receiving a possibly nil address) and
`IsDNSAllowed(name string) error`. It is modelled as an arbitrary pair
of such functions. -/
structure X509Policy where
  IsIPAllowed : Option IPAddr → Option String
  IsDNSAllowed : String → Option String

/-- Modelled from the spec (§6): the Claimer held by the controller is
repository code not under src/; the spec uses only its three effective
duration values (`DefaultDuration`, `MinDuration`, `MaxDuration`). -/
structure Claimer where
  DefaultTLSCertDuration : Int
  MinTLSCertDuration : Int
  MaxTLSCertDuration : Int
deriving DecidableEq

/-- Modelled from the spec (§2, §6): the IssuanceController collaborator
is repository code not under src/; the acme.go methods use exactly its
claimer (`ctl.Claimer`) and its X.509 policy gate
(`ctl.getPolicy().getX509()`, nil when no policy is configured),
collapsed here to an optional gate. -/
structure Controller where
  claimer : Claimer
  x509Policy : Option X509Policy

/-- Modelled from the spec (§4.2, §6): the provisioner-scoped `Claims`
duration overrides, each field optional, merged with global defaults at
controller-construction time. -/
structure Claims where
  defaultTLSCertDuration : Option Int := none
  minTLSCertDuration : Option Int := none
  maxTLSCertDuration : Option Int := none

/-- Modelled from the spec (§4.2): the provisioner-scoped `Options`
carry a policy override that either parses to an optional gate or is
malformed (`Except.error`), in which case controller construction
fails. -/
structure Options where
  x509PolicyParse : Except String (Option X509Policy)

/-- Modelled from the spec (§4.2, §6): the process-wide `Config` holds
the global duration defaults and the globally configured policy gate
(if any). -/
structure Config where
  claims : Claimer
  x509Policy : Option X509Policy

/-- Modelled from the spec (§4.2): claim merging — a provisioner
override value is used where present, the global default otherwise. -/
def mergeClaims (g : Claimer) (o : Option Claims) : Claimer :=
  match o with
  | none => g
  | some c =>
    { DefaultTLSCertDuration := c.defaultTLSCertDuration.getD g.DefaultTLSCertDuration
      MinTLSCertDuration := c.minTLSCertDuration.getD g.MinTLSCertDuration
      MaxTLSCertDuration := c.maxTLSCertDuration.getD g.MaxTLSCertDuration }

/-- Modelled from the spec: `NewController` (declared in §6, described
in §4.2 step 3) is repository code not under src/. It constructs the
IssuanceController by merging this provisioner's duration/policy
overrides with global defaults; a malformed policy override fails
construction, which is fatal to activating the provisioner. -/
def NewController (claims : Option Claims) (config : Config)
    (options : Option Options) : Except String Controller :=
  match options with
  | none =>
    .ok { claimer := mergeClaims config.claims claims
          x509Policy := config.x509Policy }
  | some o =>
    match o.x509PolicyParse with
    | .error e => .error e
    | .ok none =>
      .ok { claimer := mergeClaims config.claims claims
            x509Policy := config.x509Policy }
    | .ok (some pol) =>
      .ok { claimer := mergeClaims config.claims claims
            x509Policy := some pol }

/-- Go struct `ACME` (the provisioner record). Go field `Type` is named
`type_` here (`Type` is a Lean keyword); `claims`/`options` name the Go
`Claims`/`Options` fields (lower-cased to avoid clashing with their
types); `ctl` is the controller pointer, `none` until a successful
`Init`. -/
structure ACME where
  ID : String := ""
  type_ : String := ""
  Name : String := ""
  ForceCN : Bool := false
  RequireEAB : Bool := false
  Challenges : List ACMEChallenge := []
  claims : Option Claims := none
  options : Option Options := none
  ctl : Option Controller := none

/-- Go method `GetIDForToken`. -/
def ACME.GetIDForToken (p : ACME) : String :=
  "acme/" ++ p.Name

/-- Go method `GetID`. -/
def ACME.GetID (p : ACME) : String :=
  if p.ID ≠ "" then p.ID else p.GetIDForToken

/-- Go method `GetName`. -/
def ACME.GetName (p : ACME) : String :=
  p.Name

/-- Go method `DefaultTLSCertDuration`: dereferences `ctl` (`none` =
nil-pointer panic) and returns the claimer's default duration. -/
def ACME.DefaultTLSCertDuration (p : ACME) : Option Int :=
  p.ctl.map (fun c => c.claimer.DefaultTLSCertDuration)

/-- The `for _, c := range p.Challenges` loop body of `Init`: the first
`Validate` error is returned. -/
def validateChallenges : List ACMEChallenge → Option String
  | [] => none
  | c :: cs =>
    match c.Validate with
    | some e => some e
    | none => validateChallenges cs

/-- The first challenge of the list failing `Validate`, if any (used to
state which value an `Init` failure names). -/
def firstInvalidChallenge : List ACMEChallenge → Option ACMEChallenge
  | [] => none
  | c :: cs =>
    if c.Validate = none then firstInvalidChallenge cs else some c

/-- Go method `Init`: validates `Type`, `Name` and every enabled
challenge in order, then assigns `p.ctl, err = NewController(...)`.
Returns the updated receiver together with the error. -/
def ACME.Init (p : ACME) (config : Config) : ACME × Option String :=
  if p.type_ = "" then
    (p, some "provisioner type cannot be empty")
  else if p.Name = "" then
    (p, some "provisioner name cannot be empty")
  else
    match validateChallenges p.Challenges with
    | some e => (p, some e)
    | none =>
      match NewController p.claims config p.options with
      | .error e => ({ p with ctl := none }, some e)
      | .ok c => ({ p with ctl := some c }, none)

/-- Go `ACMEIdentifier` (Kind and Value); the Go field `Type` is
`type_` here. The Go constants `IP` and `DNS` are the strings "ip" and
"dns". -/
structure ACMEIdentifier where
  type_ : String
  Value : String

/-- Go method `AuthorizeOrderIdentifier`. `parseIP` is `net.ParseIP`
(Go standard library, passed in explicitly; `none` is the nil result on
parse failure). The outer `Option` is the nil-`ctl` panic; the inner
`Option String` is the returned error. -/
def ACME.AuthorizeOrderIdentifier (p : ACME)
    (parseIP : String → Option IPAddr)
    (identifier : ACMEIdentifier) : Option (Option String) :=
  match p.ctl with
  | none => none
  | some ctl =>
    match ctl.x509Policy with
    | none => some none
    | some pol =>
      some (
        if identifier.type_ = "ip" then
          pol.IsIPAllowed (parseIP identifier.Value)
        else if identifier.type_ = "dns" then
          pol.IsDNSAllowed identifier.Value
        else
          some ("invalid ACME identifier type \x27" ++ identifier.type_
                ++ "\x27 provided"))

/-- The Go `Type` enumeration value `TypeACME` passed to
`newProvisionerExtensionOption`. -/
inductive PType where
  | ACME
deriving DecidableEq

/-- The sign-option chain elements assembled by `AuthorizeSign`, one
constructor per element kind, each carrying exactly the arguments the
Go code passes to the corresponding constructor (the constructors
themselves are external to acme.go). -/
inductive SignOption where
  | provisioner (p : ACME)
  | provisionerExtensionOption (t : PType) (name : String) (keyID : String)
  | forceCNOption (forceCN : Bool)
  | profileDefaultDuration (d : Int)
  | defaultPublicKeyValidator
  | validityValidator (minDur : Int) (maxDur : Int)
  | x509NamePolicyValidator (policy : Option X509Policy)

/-- Go method `AuthorizeSign`: dereferences `ctl` (`none` = nil-pointer
panic) and returns the seven-element sign-option list together with a
nil error. -/
def ACME.AuthorizeSign (p : ACME) (token : String) :
    Option (List SignOption × Option String) :=
  p.ctl.map (fun ctl =>
    ([SignOption.provisioner p,
      SignOption.provisionerExtensionOption PType.ACME p.Name "",
      SignOption.forceCNOption p.ForceCN,
      SignOption.profileDefaultDuration ctl.claimer.DefaultTLSCertDuration,
      SignOption.defaultPublicKeyValidator,
      SignOption.validityValidator ctl.claimer.MinTLSCertDuration
        ctl.claimer.MaxTLSCertDuration,
      SignOption.x509NamePolicyValidator ctl.x509Policy],
     none))

/-- Go method `AuthorizeRevoke`: returns nil unconditionally. -/
def ACME.AuthorizeRevoke (p : ACME) (token : String) : Option String :=
  none

/-- Go method `IsChallengeEnabled`: the default set is {http-01,
dns-01, tls-alpn-01}; a non-empty `Challenges` list replaces it; the
membership test is `strings.EqualFold`. -/
def ACME.IsChallengeEnabled (p : ACME) (challenge : ACMEChallenge) : Bool :=
  let enabledChallenges :=
    if p.Challenges.length > 0 then p.Challenges
    else [HTTP_01, DNS_01, TLS_ALPN_01]
  enabledChallenges.any (fun ch => eqFold ch challenge)

/-! ### Concrete fixtures for witnesses and counterexamples -/

/-- A policy gate that denies every IP and every DNS name. -/
def denyAllPolicy : X509Policy :=
  { IsIPAllowed := fun _ => some "ip not allowed"
    IsDNSAllowed := fun _ => some "dns name not allowed" }

/-- A concrete claimer: 24h default, 5m minimum, 30d maximum (in
nanoseconds). -/
def claimer0 : Claimer :=
  { DefaultTLSCertDuration := 86400000000000
    MinTLSCertDuration := 300000000000
    MaxTLSCertDuration := 2592000000000000 }

/-- A controller with no policy gate configured. -/
def ctlNoPolicy : Controller :=
  { claimer := claimer0, x509Policy := none }

/-- A controller with the deny-all policy gate configured. -/
def ctlWithPolicy : Controller :=
  { claimer := claimer0, x509Policy := some denyAllPolicy }

/-- An initialized provisioner whose controller has no policy gate. -/
def acmeNoGate : ACME :=
  { type_ := "ACME", Name := "prov", ctl := some ctlNoPolicy }

/-- An initialized provisioner whose controller has the deny-all
gate. -/
def acmeWithGate : ACME :=
  { type_ := "ACME", Name := "prov", ctl := some ctlWithPolicy }

/-- An uninitialized provisioner with valid fields (used for Init). -/
def acmeValid : ACME :=
  { type_ := "ACME", Name := "prov", Challenges := [HTTP_01, "DNS-01"] }

/-- An uninitialized provisioner with an empty Name (used for Init
error paths). -/
def acmeNoName : ACME :=
  { type_ := "ACME", Name := "" }

/-- A parse function standing for `net.ParseIP` that fails on every
input (all the concrete strings fed to it below are invalid IPs). -/
def parseIP0 : String → Option IPAddr :=
  fun _ => none

/-- A concrete global configuration with no global policy gate. -/
def config0 : Config :=
  { claims := claimer0, x509Policy := none }

/-! ### C8 — AuthorizeRevoke is an unconditional no-op -/

/-- C8: for every provisioner state and every token string,
`AuthorizeRevoke` returns nil — revocation is always allowed, an
unconditional deliberate no-op. -/
theorem authorizeRevoke_always_nil (p : ACME) (token : String) :
    p.AuthorizeRevoke token = none :=
  rfl

/-! ### C3 — no gate means every identifier is allowed -/

/-- C3: when the controller has no configured X.509 PolicyGate,
`AuthorizeOrderIdentifier` returns nil for every identifier, of every
kind and every value (including a syntactically invalid IP string). -/
theorem authorizeOrderIdentifier_no_gate (p : ACME) (c : Controller)
    (parseIP : String → Option IPAddr) (identifier : ACMEIdentifier)
    (hc : p.ctl = some c) (hp : c.x509Policy = none) :
    p.AuthorizeOrderIdentifier parseIP identifier = some none := by
  simp [ACME.AuthorizeOrderIdentifier, hc, hp]

/-- C3 witness: a concrete gate-less provisioner allows an "ip"
identifier whose value is not a syntactically valid IP. -/
theorem authorizeOrderIdentifier_no_gate_witness :
    acmeNoGate.AuthorizeOrderIdentifier parseIP0 ⟨"ip", "not-an-ip"⟩ =
      some none :=
  authorizeOrderIdentifier_no_gate acmeNoGate ctlNoPolicy parseIP0
    ⟨"ip", "not-an-ip"⟩ rfl rfl

/-! ### C5 — configured gate results pass through exactly -/

/-- C5: when an X.509 PolicyGate is configured, an "ip" identifier
returns exactly the gate's `IsIPAllowed` result on the parse of the
value (a parse failure passes the nil address through), and a "dns"
identifier returns exactly the gate's `IsDNSAllowed` result on the
value string. -/
theorem authorizeOrderIdentifier_gate_passthrough (p : ACME)
    (c : Controller) (pol : X509Policy)
    (parseIP : String → Option IPAddr) (v : String)
    (hc : p.ctl = some c) (hp : c.x509Policy = some pol) :
    p.AuthorizeOrderIdentifier parseIP ⟨"ip", v⟩ =
      some (pol.IsIPAllowed (parseIP v)) ∧
    p.AuthorizeOrderIdentifier parseIP ⟨"dns", v⟩ =
      some (pol.IsDNSAllowed v) := by
  constructor <;> simp [ACME.AuthorizeOrderIdentifier, hc, hp]

/-- C5 witness: with a deny-all gate and an invalid IP string, the
gate's answers for the nil address and the raw DNS string pass
through. -/
theorem authorizeOrderIdentifier_gate_passthrough_witness :
    acmeWithGate.AuthorizeOrderIdentifier parseIP0 ⟨"ip", "300.1.2.3"⟩ =
      some (denyAllPolicy.IsIPAllowed (parseIP0 "300.1.2.3")) ∧
    acmeWithGate.AuthorizeOrderIdentifier parseIP0 ⟨"dns", "300.1.2.3"⟩ =
      some (denyAllPolicy.IsDNSAllowed "300.1.2.3") :=
  authorizeOrderIdentifier_gate_passthrough acmeWithGate ctlWithPolicy
    denyAllPolicy parseIP0 "300.1.2.3" rfl rfl

/-! ### C1 — the sign chain (corrected: seven elements, not six) -/

/-- C1 counterexample: at a concrete provisioner and token the chain
`AuthorizeSign` returns has seven elements, not the six the claim
states. -/
theorem authorizeSign_six_elements_cex :
    ¬ ((acmeWithGate.AuthorizeSign "token").map
        (fun r => r.fst.length) = some 6) ∧
    (acmeWithGate.AuthorizeSign "token").map
      (fun r => r.fst.length) = some 7 := by
  constructor
  · intro h
    simp [ACME.AuthorizeSign, acmeWithGate] at h
  · rfl

/-- C1 (amended): for every provisioner whose controller is set and
every token, `AuthorizeSign` returns a nil error together with a chain
of exactly seven elements in this fixed order: the provisioner value
itself, then the provisioner-identity modifier, forced-CN modifier,
default-duration modifier, public-key validator, validity-duration
validator, name-policy validator. -/
theorem authorizeSign_chain (p : ACME) (c : Controller) (token : String)
    (h : p.ctl = some c) :
    p.AuthorizeSign token =
      some ([SignOption.provisioner p,
             SignOption.provisionerExtensionOption PType.ACME p.Name "",
             SignOption.forceCNOption p.ForceCN,
             SignOption.profileDefaultDuration
               c.claimer.DefaultTLSCertDuration,
             SignOption.defaultPublicKeyValidator,
             SignOption.validityValidator c.claimer.MinTLSCertDuration
               c.claimer.MaxTLSCertDuration,
             SignOption.x509NamePolicyValidator c.x509Policy],
            none) := by
  simp [ACME.AuthorizeSign, h]

/-- C1 witness: the amended chain at a concrete provisioner. -/
theorem authorizeSign_chain_witness :
    acmeWithGate.AuthorizeSign "token" =
      some ([SignOption.provisioner acmeWithGate,
             SignOption.provisionerExtensionOption PType.ACME
               acmeWithGate.Name "",
             SignOption.forceCNOption acmeWithGate.ForceCN,
             SignOption.profileDefaultDuration
               ctlWithPolicy.claimer.DefaultTLSCertDuration,
             SignOption.defaultPublicKeyValidator,
             SignOption.validityValidator
               ctlWithPolicy.claimer.MinTLSCertDuration
               ctlWithPolicy.claimer.MaxTLSCertDuration,
             SignOption.x509NamePolicyValidator ctlWithPolicy.x509Policy],
            none) :=
  authorizeSign_chain acmeWithGate ctlWithPolicy "token" rfl

/-! ### C9 — implicit: chain of seven, headed by the provisioner -/

/-- C9: the chain `AuthorizeSign` returns has exactly seven elements:
its first element is the provisioner value itself (as a sign option),
followed by the six modifiers and validators in the §4.5 order, and
the accompanying error is nil. -/
theorem authorizeSign_seven_elements (p : ACME) (c : Controller)
    (token : String) (h : p.ctl = some c) :
    ∃ opts, p.AuthorizeSign token = some (opts, none) ∧
      opts.length = 7 ∧
      opts.head? = some (SignOption.provisioner p) ∧
      opts.tail =
        [SignOption.provisionerExtensionOption PType.ACME p.Name "",
         SignOption.forceCNOption p.ForceCN,
         SignOption.profileDefaultDuration
           c.claimer.DefaultTLSCertDuration,
         SignOption.defaultPublicKeyValidator,
         SignOption.validityValidator c.claimer.MinTLSCertDuration
           c.claimer.MaxTLSCertDuration,
         SignOption.x509NamePolicyValidator c.x509Policy] := by
  refine ⟨[SignOption.provisioner p,
           SignOption.provisionerExtensionOption PType.ACME p.Name "",
           SignOption.forceCNOption p.ForceCN,
           SignOption.profileDefaultDuration
             c.claimer.DefaultTLSCertDuration,
           SignOption.defaultPublicKeyValidator,
           SignOption.validityValidator c.claimer.MinTLSCertDuration
             c.claimer.MaxTLSCertDuration,
           SignOption.x509NamePolicyValidator c.x509Policy],
         ?_, rfl, rfl, rfl⟩
  simp [ACME.AuthorizeSign, h]

/-- C9 witness: the seven-element chain at a concrete provisioner. -/
theorem authorizeSign_seven_elements_witness :
    ∃ opts, acmeNoGate.AuthorizeSign "t" = some (opts, none) ∧
      opts.length = 7 ∧
      opts.head? = some (SignOption.provisioner acmeNoGate) ∧
      opts.tail =
        [SignOption.provisionerExtensionOption PType.ACME
           acmeNoGate.Name "",
         SignOption.forceCNOption acmeNoGate.ForceCN,
         SignOption.profileDefaultDuration
           ctlNoPolicy.claimer.DefaultTLSCertDuration,
         SignOption.defaultPublicKeyValidator,
         SignOption.validityValidator
           ctlNoPolicy.claimer.MinTLSCertDuration
           ctlNoPolicy.claimer.MaxTLSCertDuration,
         SignOption.x509NamePolicyValidator ctlNoPolicy.x509Policy] :=
  authorizeSign_seven_elements acmeNoGate ctlNoPolicy "t" rfl

/-! ### C2 — unknown identifier kind (corrected: gate required) -/

/-- C2 counterexample: with no PolicyGate configured, an identifier of
kind "unknown" is allowed (nil error) rather than rejected with the
UnsupportedIdentifierType error the claim demands for every gate
configuration. -/
theorem authorizeOrderIdentifier_unknown_cex :
    acmeNoGate.AuthorizeOrderIdentifier parseIP0 ⟨"unknown", "x"⟩ =
      some none ∧
    ¬ (acmeNoGate.AuthorizeOrderIdentifier parseIP0 ⟨"unknown", "x"⟩ =
        some (some ("invalid ACME identifier type \x27" ++ "unknown"
                    ++ "\x27 provided"))) := by
  constructor
  · rfl
  · intro h
    simp [ACME.AuthorizeOrderIdentifier, acmeNoGate, ctlNoPolicy] at h

/-- C2 (amended): when an X.509 PolicyGate is configured, an
identifier whose kind is neither "ip" nor "dns" makes
`AuthorizeOrderIdentifier` return the UnsupportedIdentifierType error
naming that kind; when no gate is configured the identifier is allowed
(nil) instead. -/
theorem authorizeOrderIdentifier_unknown_kind (p : ACME) (c : Controller)
    (pol : X509Policy) (parseIP : String → Option IPAddr)
    (identifier : ACMEIdentifier)
    (hc : p.ctl = some c) (hp : c.x509Policy = some pol)
    (h1 : identifier.type_ ≠ "ip") (h2 : identifier.type_ ≠ "dns") :
    p.AuthorizeOrderIdentifier parseIP identifier =
      some (some ("invalid ACME identifier type \x27"
                  ++ identifier.type_ ++ "\x27 provided")) := by
  simp [ACME.AuthorizeOrderIdentifier, hc, hp, h1, h2]

/-- C2 witness: a concrete gated provisioner rejects the kind
"unknown" with the error naming it. -/
theorem authorizeOrderIdentifier_unknown_kind_witness :
    acmeWithGate.AuthorizeOrderIdentifier parseIP0 ⟨"unknown", "x"⟩ =
      some (some ("invalid ACME identifier type \x27"
                  ++ (ACMEIdentifier.mk "unknown" "x").type_
                  ++ "\x27 provided")) :=
  authorizeOrderIdentifier_unknown_kind acmeWithGate ctlWithPolicy
    denyAllPolicy parseIP0 ⟨"unknown", "x"⟩ rfl rfl
    (by decide) (by decide)

/-! ### C4 — the effective enabled-challenge set -/

/-- C4: `IsChallengeEnabled` returns true exactly when the challenge
case-insensitively matches a member of the effective set, which is the
configured `Challenges` list verbatim when non-empty and
{http-01, dns-01, tls-alpn-01} when empty (so device-attest-01 is
never enabled by default). -/
theorem isChallengeEnabled_iff (p : ACME) (challenge : ACMEChallenge) :
    p.IsChallengeEnabled challenge = true ↔
      ∃ ch ∈ (if p.Challenges ≠ [] then p.Challenges
              else [HTTP_01, DNS_01, TLS_ALPN_01]),
        toLowerStr ch = toLowerStr challenge := by
  unfold ACME.IsChallengeEnabled
  cases hch : p.Challenges with
  | nil => simp [eqFold, List.any_eq_true]
  | cons a as => simp [eqFold, List.any_eq_true]

/-- C4 witness: the default set enables "HTTP-01" (case-insensitively)
for a provisioner with an empty configured list. -/
theorem isChallengeEnabled_iff_witness :
    acmeNoGate.IsChallengeEnabled "HTTP-01" = true :=
  (isChallengeEnabled_iff acmeNoGate "HTTP-01").mpr
    ⟨HTTP_01, by decide, by decide⟩

/-! ### C7 — challenge validation -/

/-- C7: `Validate` succeeds (nil) exactly when the string
case-insensitively matches one of http-01, dns-01, tls-alpn-01,
device-attest-01, and on every other string it fails with the
unsupported-challenge error naming the string. -/
theorem validate_challenge_iff (c : ACMEChallenge) :
    (c.Validate = none ↔
      toLowerStr c ∈ [HTTP_01, DNS_01, TLS_ALPN_01, DEVICE_ATTEST_01]) ∧
    (c.Validate = none ∨ c.Validate = some (unsupportedChallengeMsg c)) := by
  unfold ACMEChallenge.Validate ACMEChallenge.normalize
  constructor
  · split
    · simp_all
    · simp_all
  · split
    · exact Or.inl rfl
    · exact Or.inr rfl

/-- C7 witness: "Dns-01" validates (nil), via the case-insensitive
membership direction of the theorem. -/
theorem validate_challenge_iff_witness :
    ACMEChallenge.Validate "Dns-01" = none :=
  (validate_challenge_iff "Dns-01").1.mpr (by decide)

/-! ### C6 / C10 — the Init contract -/

/-- The challenge-validation loop of `Init` returns exactly the
unsupported-challenge error of the first invalid entry (shared helper
for the Init theorems). -/
theorem validateChallenges_eq_firstInvalid (cs : List ACMEChallenge) :
    validateChallenges cs =
      (firstInvalidChallenge cs).map unsupportedChallengeMsg := by
  induction cs with
  | nil => rfl
  | cons c cs ih =>
    unfold validateChallenges firstInvalidChallenge
    cases h : c.Validate with
    | none => simpa [h] using ih
    | some e =>
      have he : e = unsupportedChallengeMsg c := by
        unfold ACMEChallenge.Validate at h
        split at h
        · cases h
        · exact (Option.some.inj h).symm
      simp [h, he]

/-- C6: `Init` fails with the invalid-configuration message when the
Type field or the Name field is empty; otherwise the first enabled
challenge failing `Validate` aborts with the unsupported-challenge
error naming that value; with all-valid fields (and no malformed
options block) it succeeds and builds the controller so that
`DefaultTLSCertDuration` returns the controller's configured (merged)
default. -/
theorem init_contract (p : ACME) (config : Config) :
    (p.type_ = "" →
      p.Init config = (p, some "provisioner type cannot be empty"))
  ∧ (p.type_ ≠ "" → p.Name = "" →
      p.Init config = (p, some "provisioner name cannot be empty"))
  ∧ (∀ c0, p.type_ ≠ "" → p.Name ≠ "" →
      firstInvalidChallenge p.Challenges = some c0 →
      (p.Init config).2 = some (unsupportedChallengeMsg c0))
  ∧ (p.type_ ≠ "" → p.Name ≠ "" →
      firstInvalidChallenge p.Challenges = none → p.options = none →
      (p.Init config).2 = none ∧
      (p.Init config).1.DefaultTLSCertDuration =
        some (mergeClaims config.claims p.claims).DefaultTLSCertDuration) := by
  refine ⟨?_, ?_, ?_, ?_⟩
  · intro ht
    simp [ACME.Init, ht]
  · intro ht hn
    simp [ACME.Init, ht, hn]
  · intro c0 ht hn hf
    simp [ACME.Init, ht, hn, validateChallenges_eq_firstInvalid, hf]
  · intro ht hn hf ho
    simp [ACME.Init, ht, hn, validateChallenges_eq_firstInvalid, hf,
          NewController, ho, ACME.DefaultTLSCertDuration]

/-- C6 witness: a provisioner with valid Type, Name and challenges and
no options block initializes successfully and then reports the merged
default TLS certificate duration. -/
theorem init_contract_witness :
    (acmeValid.Init config0).2 = none ∧
    (acmeValid.Init config0).1.DefaultTLSCertDuration =
      some (mergeClaims config0.claims acmeValid.claims).DefaultTLSCertDuration :=
  (init_contract acmeValid config0).2.2.2 (by decide) (by decide)
    (by decide) rfl

/-- C10: on each field-validation error path (empty Type, empty Name,
or an invalid entry among the enabled challenges) `Init` returns before
constructing the controller: the provisioner state is exactly the
receiver, so in particular a nil `ctl` is still nil. -/
theorem init_validation_error_state_unchanged (p : ACME) (config : Config)
    (h : p.type_ = "" ∨ p.Name = "" ∨
         firstInvalidChallenge p.Challenges ≠ none) :
    (p.Init config).1 = p ∧
    (p.ctl = none → (p.Init config).1.ctl = none) := by
  have hfst : (p.Init config).1 = p := by
    unfold ACME.Init
    by_cases ht : p.type_ = ""
    · simp [ht]
    · by_cases hn : p.Name = ""
      · simp [ht, hn]
      · rcases h with h | h | h
        · exact absurd h ht
        · exact absurd h hn
        · cases hf : firstInvalidChallenge p.Challenges with
          | none => exact absurd hf h
          | some c0 =>
            simp [ht, hn, validateChallenges_eq_firstInvalid, hf]
  exact ⟨hfst, fun hc => by rw [hfst]; exact hc⟩

/-- C10 witness: on a first `Init` call with an empty Name, the state
(and in particular the nil `ctl`) is unchanged. -/
theorem init_validation_error_state_unchanged_witness :
    (acmeNoName.Init config0).1 = acmeNoName ∧
    (acmeNoName.ctl = none → (acmeNoName.Init config0).1.ctl = none) :=
  init_validation_error_state_unchanged acmeNoName config0
    (Or.inr (Or.inl rfl))

end AcmeProv
